import Mathlib

/-!
Shallow embedding of the sidecar process supervisor implemented in
src/zkteco-desktop/frontend/src-tauri/src/lib.rs, together with theorems
checking its specification.  The StatusMap (a Rust HashMap<String, String>)
is embedded as an association list observed only through get/insert/remove;
the tracked process handle (Option<CommandChild>) as Option Unit; the
in-memory log store (Vec<LogEntry>) as List LogEntry.  Wall-clock
timestamps, locks and the OS kill call are outside the embedding: kill
results are passed in as an Except value, and lock acquisition is assumed
to succeed (lock poisoning is not modelled).
-/

/-- One in-memory log entry (timestamp dropped: it is wall-clock IO). -/
structure LogEntry where
  level : String
  message : String
  source : String
deriving DecidableEq, Repr

/-- One parsed line of the on-disk log file (struct FileLogEntry). -/
structure FileLogEntry where
  line_number : Nat
  timestamp : String
  level : String
  module : String
  message : String
deriving DecidableEq, Repr

/- Association-list embedding of HashMap<String, String>. -/

def alGet (k : String) : List (String × String) → Option String
  | [] => none
  | p :: t => if p.1 = k then some p.2 else alGet k t

def alRemove (k : String) : List (String × String) → List (String × String)
  | [] => []
  | p :: t => if p.1 = k then alRemove k t else p :: alRemove k t

def alInsert (k v : String) (l : List (String × String)) : List (String × String) :=
  (k, v) :: alRemove k l

/- Substring containment, embedding Rust str::contains. -/

def containsSub (needle : List Char) : List Char → Bool
  | [] => needle.isEmpty
  | c :: t => needle.isPrefixOf (c :: t) || containsSub needle t

def strContains (hay pat : String) : Bool :=
  containsSub pat.data hay.data

/- Leftmost split at a separator, embedding Rust str::splitn(2, sep):
   some (before, after) when sep occurs, none when it does not. -/

def splitOnceAux (sep : List Char) : List Char → Option (List Char × List Char)
  | [] => if sep.isEmpty then some ([], []) else none
  | c :: t =>
    if sep.isPrefixOf (c :: t) then some ([], (c :: t).drop sep.length)
    else
      match splitOnceAux sep t with
      | some (a, b) => some (c :: a, b)
      | none => none

def splitOnce (s sep : String) : Option (String × String) :=
  match splitOnceAux sep.data s.data with
  | some (a, b) => some (String.mk a, String.mk b)
  | none => none

/- The startup guard (struct BackendStartupGuard and its Drop impl). -/

def BACKEND_STARTING_KEY : String := "backend_starting"

structure BackendStartupGuard where
  acquired : Bool
deriving DecidableEq, Repr

/-- The held-token test inside try_acquire:
    status_map.get(KEY).map(|v| v == "true").unwrap_or(false). -/
def heldStarting (status : List (String × String)) : Bool :=
  match alGet BACKEND_STARTING_KEY status with
  | some v => v == "true"
  | none => false

/-- BackendStartupGuard::try_acquire: returns the updated StatusMap, the
    guard, and the acquired flag. -/
def try_acquire (status : List (String × String)) :
    List (String × String) × BackendStartupGuard × Bool :=
  if heldStarting status then (status, ⟨false⟩, false)
  else (alInsert BACKEND_STARTING_KEY "true" status, ⟨true⟩, true)

/-- impl Drop for BackendStartupGuard: clears the token when acquired and
    marks the guard released; a no-op otherwise. -/
def guardDrop (g : BackendStartupGuard) (status : List (String × String)) :
    BackendStartupGuard × List (String × String) :=
  if g.acquired then (⟨false⟩, alRemove BACKEND_STARTING_KEY status)
  else (g, status)

/- Liveness reconciliation (detect_existing_backend), with the HTTP probe
   result passed in as a boolean. -/

def detect_existing_backend (handle : Option Unit) (is_http_healthy : Bool) : Bool :=
  if handle.isSome then true else is_http_healthy

/- stop_backend and cleanup_backend, with the OS kill result passed in. -/

def stop_backend (handle : Option Unit) (kill_result : Except String Unit) :
    Option Unit × Except String String :=
  match handle with
  | some _ =>
    match kill_result with
    | Except.ok _ => (none, Except.ok "Backend process stopped successfully")
    | Except.error e => (none, Except.error ("Failed to stop backend process: " ++ e))
  | none => (none, Except.error "No backend process is running")

def cleanup_backend (handle : Option Unit) (kill_result : Except String Unit) :
    Option Unit × Except String String :=
  match handle with
  | some _ =>
    match kill_result with
    | Except.ok _ => (none, Except.ok "Backend process terminated successfully")
    | Except.error e => (none, Except.error ("Failed to kill backend process: " ++ e))
  | none => (none, Except.ok "No backend process to terminate")

def exceptIsOk : Except String String → Bool
  | Except.ok _ => true
  | Except.error _ => false

/- The background output consumer of start_backend. -/

/-- Severity classification of a stderr line in start_backend. -/
def stderrLevel (s : String) : String :=
  if strContains s "ERROR" || strContains s "Error"
      || strContains s "ModuleNotFoundError" || strContains s "Failed to execute" then
    "error"
  else if strContains s "WARNING" || strContains s "Warning" then
    "warning"
  else
    "info"

/-- Critical-error test of a stderr line (the StatusMap write condition). -/
def stderrCritical (s : String) : Bool :=
  strContains s "ModuleNotFoundError" || strContains s "Failed to execute script"

/-- The push-then-trim of the stdout/stderr branches: push the entry, then
    drain(0..len-100) when len > 100 (keep the newest 100). -/
def pushTrim (logs : List LogEntry) (e : LogEntry) : List LogEntry :=
  if (logs ++ [e]).length > 100 then
    (logs ++ [e]).drop ((logs ++ [e]).length - 100)
  else logs ++ [e]

/-- Debug formatting of Option<i32> exit codes ({:?}). -/
def fmtCode : Option Int → String
  | some n => "Some(" ++ toString n ++ ")"
  | none => "None"

inductive CommandEvent where
  | stdout (s : String)
  | stderr (s : String)
  | error (s : String)
  | terminated (code : Option Int)
deriving DecidableEq, Repr

/-- Shared state touched by the background consumer. -/
structure MonitorState where
  logs : List LogEntry
  status : List (String × String)
  handle : Option Unit
deriving DecidableEq, Repr

/-- One step of the background event-consumption loop in start_backend. -/
def processEvent (st : MonitorState) : CommandEvent → MonitorState
  | CommandEvent.stdout s =>
    { st with logs := pushTrim st.logs ⟨"info", s, "stdout"⟩ }
  | CommandEvent.stderr s =>
    let st1 := { st with logs := pushTrim st.logs ⟨stderrLevel s, s, "stderr"⟩ }
    if stderrCritical s then
      { st1 with status := alInsert "backend_status" ("Failed to start backend: " ++ s) st1.status }
    else st1
  | CommandEvent.error e =>
    { st with
      logs := st.logs ++ [⟨"error", e, "system"⟩],
      status := alInsert "backend_status" ("Backend error: " ++ e) st.status }
  | CommandEvent.terminated code =>
    { st with
      logs := st.logs ++ [⟨"error", "Backend terminated with code: " ++ fmtCode code, "system"⟩],
      status := alInsert "backend_status"
        ("Backend failed to start - terminated with code: " ++ fmtCode code) st.status,
      handle := none }

/-- The state right after start_backend pushed its initial system entry. -/
def monitorInit : MonitorState :=
  ⟨[⟨"info", "Starting backend process...", "system"⟩], [], some ()⟩

/-- The post-observation-window verdict of start_backend: check the
    StatusMap for a failure message, then whether the handle was cleared. -/
def postSpawnCheck (status : List (String × String)) (handle : Option Unit) :
    Except String String :=
  match alGet "backend_status" status with
  | some error_msg => Except.error error_msg
  | none =>
    if handle.isNone then
      Except.error "Backend process terminated unexpectedly during startup"
    else Except.ok "Backend started successfully"

/- The log-file reader (read_log_file / parse_log_line), taking the file
   content already split into lines. -/

def startsWithLBracket (s : String) : Bool :=
  match s.data with
  | c :: _ => c = '['
  | [] => false

def parse_log_line (line : String) (line_number : Nat) : Option FileLogEntry :=
  if startsWithLBracket line = false then none
  else
    match splitOnce line "] " with
    | none => none
    | some (p0, rest) =>
      let timestamp := String.mk (p0.data.dropWhile (fun c => c = '['))
      match splitOnce rest " in " with
      | none => some ⟨line_number, timestamp, "INFO", "unknown", rest⟩
      | some (level, rest2) =>
        match splitOnce rest2 ": " with
        | none => some ⟨line_number, timestamp, level, "unknown", rest2⟩
        | some (m, msg) => some ⟨line_number, timestamp, level, m, msg⟩

def read_log_file_lines (all_lines : List String) (lines : Option Nat) :
    List FileLogEntry :=
  let lines_to_read := lines.getD 500
  let start_idx :=
    if all_lines.length > lines_to_read then all_lines.length - lines_to_read else 0
  ((all_lines.drop start_idx).enum).filterMap
    (fun p => parse_log_line p.2 (start_idx + p.1 + 1))

/- Helper lemmas shared by the claim theorems. -/

lemma alGet_insert_self (k v : String) (l : List (String × String)) :
    alGet k (alInsert k v l) = some v := by
  simp [alInsert, alGet]

lemma alGet_remove_self (k : String) (l : List (String × String)) :
    alGet k (alRemove k l) = none := by
  induction l with
  | nil => simp [alRemove, alGet]
  | cons p t ih =>
    by_cases h : p.1 = k <;> simp [alRemove, alGet, h, ih]

lemma pushTrim_length_le (logs : List LogEntry) (e : LogEntry) :
    (pushTrim logs e).length ≤ 100 ∧ ∃ k, pushTrim logs e = (logs ++ [e]).drop k := by
  unfold pushTrim
  by_cases h : (logs ++ [e]).length > 100
  · rw [if_pos h]
    refine ⟨?_, ⟨(logs ++ [e]).length - 100, rfl⟩⟩
    rw [List.length_drop]
    omega
  · rw [if_neg h]
    refine ⟨by omega, ⟨0, (List.drop_zero _).symm⟩⟩

lemma processEvent_stderr_logs (st : MonitorState) (s : String) :
    (processEvent st (CommandEvent.stderr s)).logs
      = pushTrim st.logs ⟨stderrLevel s, s, "stderr"⟩ := by
  unfold processEvent
  by_cases h : stderrCritical s <;> simp [h]

lemma foldl_error_len (n : Nat) (st : MonitorState) (s : String) :
    ((List.replicate n (CommandEvent.error s)).foldl processEvent st).logs.length
      = st.logs.length + n := by
  induction n generalizing st with
  | zero => simp
  | succ m ih =>
    rw [List.replicate_succ, List.foldl_cons, ih]
    simp [processEvent]
    omega

/-- C1: try_acquire atomically checks-and-sets the process-wide
    backend_starting token: when the token is already held it returns
    acquired=false and leaves the StatusMap unchanged; when it is not held
    it sets the token and returns an acquired guard.  Dropping an acquired
    guard clears the token and marks the guard released, so a second drop
    (or dropping a non-acquired guard) changes nothing: the token is
    cleared exactly once, never more. -/
theorem startup_guard_mutex (status : List (String × String)) :
    (heldStarting status = true → try_acquire status = (status, ⟨false⟩, false))
  ∧ (heldStarting status = false →
        try_acquire status = (alInsert BACKEND_STARTING_KEY "true" status, ⟨true⟩, true)
      ∧ heldStarting (try_acquire status).1 = true)
  ∧ (∀ s, (guardDrop ⟨true⟩ s).1 = ⟨false⟩ ∧ heldStarting (guardDrop ⟨true⟩ s).2 = false)
  ∧ (∀ s, guardDrop ⟨false⟩ s = (⟨false⟩, s)) := by
  refine ⟨?_, ?_, ?_, ?_⟩
  · intro h; simp [try_acquire, h]
  · intro h
    have h2 : try_acquire status
        = (alInsert BACKEND_STARTING_KEY "true" status, ⟨true⟩, true) := by
      simp [try_acquire, h]
    exact ⟨h2, by rw [h2]; simp [heldStarting, alGet_insert_self]⟩
  · intro s
    constructor
    · simp [guardDrop]
    · simp [guardDrop, heldStarting, alGet_remove_self]
  · intro s; simp [guardDrop]

/-- C1 witness: try_acquire on a StatusMap already holding the token is a
    refused no-op, and on an empty StatusMap it acquires and sets the
    token. -/
theorem startup_guard_mutex_witness :
    try_acquire [(BACKEND_STARTING_KEY, "true")]
      = ([(BACKEND_STARTING_KEY, "true")], ⟨false⟩, false)
  ∧ try_acquire [] = ([(BACKEND_STARTING_KEY, "true")], ⟨true⟩, true) :=
  ⟨(startup_guard_mutex _).1 (by decide),
   ((startup_guard_mutex _).2.1 (by decide)).1⟩

/-- C2 counterexample: starting from the initial system entry, a run of
    100 spawn-level error events leaves the in-memory log store at 101
    entries, because the Error branch of the consumer appends without
    trimming — the store exceeds 100 entries after an append completes. -/
theorem log_store_bound_counterexample :
    ((List.replicate 100 (CommandEvent.error "boom")).foldl processEvent monitorInit).logs.length
      = 101 := by
  rw [foldl_error_len]
  rfl

/-- C2 amended: stdout and stderr appends trim the store to at most 100
    entries, and the retained entries are a suffix of the appended
    sequence (oldest evicted first, order preserved); spawn-level error
    events and termination events append without trimming. -/
theorem log_store_bound_amended (st : MonitorState) (s : String) (code : Option Int) :
    ((processEvent st (CommandEvent.stdout s)).logs.length ≤ 100
      ∧ ∃ k, (processEvent st (CommandEvent.stdout s)).logs
          = (st.logs ++ [(⟨"info", s, "stdout"⟩ : LogEntry)]).drop k)
  ∧ ((processEvent st (CommandEvent.stderr s)).logs.length ≤ 100
      ∧ ∃ k, (processEvent st (CommandEvent.stderr s)).logs
          = (st.logs ++ [(⟨stderrLevel s, s, "stderr"⟩ : LogEntry)]).drop k)
  ∧ (processEvent st (CommandEvent.error s)).logs = st.logs ++ [⟨"error", s, "system"⟩]
  ∧ (processEvent st (CommandEvent.terminated code)).logs
      = st.logs ++ [⟨"error", "Backend terminated with code: " ++ fmtCode code, "system"⟩] := by
  refine ⟨?_, ?_, rfl, rfl⟩
  · exact pushTrim_length_le st.logs _
  · rw [processEvent_stderr_logs]
    exact pushTrim_length_le st.logs _

/-- C3: after the observation window, start_backend first checks the
    StatusMap for a recorded failure message and returns it as the start
    failure; only when no message is present does it check whether the
    tracked handle was cleared, returning a termination error; it reports
    success iff neither check fires. -/
theorem postSpawnCheck_order (status : List (String × String)) (handle : Option Unit) :
    (∀ msg, alGet "backend_status" status = some msg →
        postSpawnCheck status handle = Except.error msg)
  ∧ (alGet "backend_status" status = none →
        postSpawnCheck status none
          = Except.error "Backend process terminated unexpectedly during startup")
  ∧ (postSpawnCheck status handle = Except.ok "Backend started successfully"
      ↔ (alGet "backend_status" status = none ∧ handle ≠ none)) := by
  refine ⟨?_, ?_, ?_⟩
  · intro msg h; simp [postSpawnCheck, h]
  · intro h; simp [postSpawnCheck, h]
  · cases hs : alGet "backend_status" status with
    | some m => simp [postSpawnCheck, hs]
    | none =>
      cases handle with
      | none => simp [postSpawnCheck, hs]
      | some u => simp [postSpawnCheck, hs]

/-- C3 witness: with a recorded failure message and a still-tracked handle,
    the verdict is that failure message. -/
theorem postSpawnCheck_order_witness :
    postSpawnCheck [("backend_status", "Failed to start backend: boom")] (some ())
      = Except.error "Failed to start backend: boom" :=
  (postSpawnCheck_order _ _).1 _ (by decide)

/-- C4 counterexample: the stderr line containing only the ERROR marker is
    classified with severity error, yet it does not match the critical set
    and the StatusMap is left unwritten — refuting the claim that one
    fatal-marker set drives both the error classification and the
    StatusMap write. -/
theorem stderr_fatal_marker_counterexample :
    stderrLevel "ERROR: db connection refused" = "error"
  ∧ stderrCritical "ERROR: db connection refused" = false
  ∧ (processEvent ⟨[], [], some ()⟩
        (CommandEvent.stderr "ERROR: db connection refused")).status = [] := by
  refine ⟨by decide, by decide, by decide⟩

/-- C4 amended: a consumed stderr line is appended with source stderr and
    severity error iff it contains ERROR, Error, ModuleNotFoundError or
    Failed to execute; warning iff it contains WARNING or Warning and none
    of the error markers; info otherwise.  The StatusMap backend_status
    entry is written (with a failure message embedding the line) only for
    the narrower critical set: lines containing ModuleNotFoundError or
    Failed to execute script. -/
theorem stderr_classification_amended (st : MonitorState) (s : String) :
    (processEvent st (CommandEvent.stderr s)).logs
      = pushTrim st.logs ⟨stderrLevel s, s, "stderr"⟩
  ∧ (stderrLevel s = "error"
      ↔ (strContains s "ERROR" || strContains s "Error"
          || strContains s "ModuleNotFoundError" || strContains s "Failed to execute") = true)
  ∧ (stderrLevel s = "warning"
      ↔ ((strContains s "ERROR" || strContains s "Error"
          || strContains s "ModuleNotFoundError" || strContains s "Failed to execute") = false
        ∧ (strContains s "WARNING" || strContains s "Warning") = true))
  ∧ (stderrLevel s = "info"
      ↔ ((strContains s "ERROR" || strContains s "Error"
          || strContains s "ModuleNotFoundError" || strContains s "Failed to execute") = false
        ∧ (strContains s "WARNING" || strContains s "Warning") = false))
  ∧ ((processEvent st (CommandEvent.stderr s)).status
      = if stderrCritical s = true then
          alInsert "backend_status" ("Failed to start backend: " ++ s) st.status
        else st.status)
  ∧ stderrCritical s
      = (strContains s "ModuleNotFoundError" || strContains s "Failed to execute script") := by
  refine ⟨processEvent_stderr_logs st s, ?_, ?_, ?_, ?_, rfl⟩
  · unfold stderrLevel
    by_cases h1 : (strContains s "ERROR" || strContains s "Error"
        || strContains s "ModuleNotFoundError" || strContains s "Failed to execute") = true
    · simp [h1]
    · by_cases h2 : (strContains s "WARNING" || strContains s "Warning") = true <;>
        simp [h1, h2]
  · unfold stderrLevel
    by_cases h1 : (strContains s "ERROR" || strContains s "Error"
        || strContains s "ModuleNotFoundError" || strContains s "Failed to execute") = true
    · simp [h1]
    · by_cases h2 : (strContains s "WARNING" || strContains s "Warning") = true <;>
        simp [h1, h2]
  · unfold stderrLevel
    by_cases h1 : (strContains s "ERROR" || strContains s "Error"
        || strContains s "ModuleNotFoundError" || strContains s "Failed to execute") = true
    · simp [h1]
    · by_cases h2 : (strContains s "WARNING" || strContains s "Warning") = true <;>
        simp [h1, h2]
  · unfold processEvent
    by_cases h : stderrCritical s <;> simp [h]

/-- C5 counterexample: cleanup_backend with a tracked handle whose kill
    fails returns an error to its caller, refuting the claim that cleanup
    never propagates a failure. -/
theorem cleanup_backend_counterexample :
    (cleanup_backend (some ()) (Except.error "EPERM")).2
      = Except.error "Failed to kill backend process: EPERM"
  ∧ exceptIsOk (cleanup_backend (some ()) (Except.error "EPERM")).2 = false :=
  ⟨rfl, rfl⟩

/-- C5 amended: cleanup_backend returns success when no handle is tracked
    or when the kill succeeds, but returns an error embedding the kill
    failure when the OS kill fails; in all cases the handle ends
    untracked. -/
theorem cleanup_backend_amended (e : String) (k : Except String Unit) :
    cleanup_backend none k = (none, Except.ok "No backend process to terminate")
  ∧ cleanup_backend (some ()) (Except.ok ())
      = (none, Except.ok "Backend process terminated successfully")
  ∧ cleanup_backend (some ()) (Except.error e)
      = (none, Except.error ("Failed to kill backend process: " ++ e))
  ∧ (cleanup_backend (some ()) k).1 = none := by
  refine ⟨rfl, rfl, rfl, ?_⟩
  cases k <;> rfl

/-- C6: detect_existing_backend returns true whenever a process handle is
    tracked, independently of the HTTP probe result; with no tracked
    handle it returns exactly the probe result. -/
theorem detect_existing_backend_spec (u : Unit) (p : Bool) :
    detect_existing_backend (some u) p = true
  ∧ detect_existing_backend none p = p :=
  ⟨rfl, rfl⟩

/-- C7: stop_backend succeeds iff a handle was tracked and the kill
    succeeded; it errors when no handle was tracked or the kill failed;
    on success the handle is no longer tracked. -/
theorem stop_backend_raises_iff (h : Option Unit) (k : Except String Unit) (e : String) :
    (exceptIsOk (stop_backend h k).2 = true ↔ (h = some () ∧ k = Except.ok ()))
  ∧ stop_backend (some ()) (Except.ok ())
      = (none, Except.ok "Backend process stopped successfully")
  ∧ stop_backend none k = (none, Except.error "No backend process is running")
  ∧ stop_backend (some ()) (Except.error e)
      = (none, Except.error ("Failed to stop backend process: " ++ e)) := by
  refine ⟨?_, rfl, ?_, rfl⟩
  · cases h with
    | none => simp [stop_backend, exceptIsOk]
    | some u =>
      cases k with
      | ok v => simp [stop_backend, exceptIsOk]
      | error e2 => simp [stop_backend, exceptIsOk]
  · cases k <;> rfl

/-- C10: stop_backend takes the handle before attempting the kill, so
    after it returns no handle is tracked regardless of the kill result;
    the kill-failure branch returns the error without restoring the
    handle. -/
theorem stop_backend_clears_handle_on_error (u : Unit) (k : Except String Unit) (e : String) :
    (stop_backend (some u) k).1 = none
  ∧ stop_backend (some u) (Except.error e)
      = (none, Except.error ("Failed to stop backend process: " ++ e)) := by
  refine ⟨?_, rfl⟩
  cases k <;> rfl

/-- C8: the well-formed line parses into its timestamp, level, module and
    message fields; every line not starting with a left bracket is
    skipped; a bracketed line with no in/colon separators degrades to
    level INFO and module unknown with the remainder as message. -/
theorem parse_log_line_spec (n : Nat) :
    parse_log_line "[2025-10-01 15:46:31,029] INFO in zkteco.logger: Message here" n
      = some ⟨n, "2025-10-01 15:46:31,029", "INFO", "zkteco.logger", "Message here"⟩
  ∧ (∀ line : String, startsWithLBracket line = false → parse_log_line line n = none)
  ∧ parse_log_line "[t] WEIRDFORMAT" n
      = some ⟨n, "t", "INFO", "unknown", "WEIRDFORMAT"⟩ := by
  refine ⟨rfl, ?_, rfl⟩
  intro line h
  simp [parse_log_line, h]

/-- C8 witness: a concrete line with no leading bracket parses to
    nothing. -/
theorem parse_log_line_spec_witness :
    parse_log_line "INFO in zkteco.logger: no leading bracket" 1 = none :=
  (parse_log_line_spec 1).2.1 "INFO in zkteco.logger: no leading bracket" rfl

/-- C9: read_log_file_lines with maxLines equal to the suffix length
    considers exactly that suffix of the file and numbers each parsed
    entry by its original 1-based position in the whole file; in
    particular on a 5-line file with maxLines 2 it returns the last two
    (parseable) lines numbered 4 and 5. -/
theorem read_log_file_tail_spec (pre suf : List String) :
    read_log_file_lines (pre ++ suf) (some suf.length)
      = suf.enum.filterMap (fun p => parse_log_line p.2 (pre.length + p.1 + 1))
  ∧ read_log_file_lines
      ["[l1] A in m: one", "no bracket", "[l3] B in m: three",
       "[2025-10-01 15:46:31,029] INFO in zkteco.logger: line four",
       "[l5] WARN in mod: five"] (some 2)
      = [⟨4, "2025-10-01 15:46:31,029", "INFO", "zkteco.logger", "line four"⟩,
         ⟨5, "l5", "WARN", "mod", "five"⟩] := by
  constructor
  · have hidx :
        (if (pre ++ suf).length > suf.length then (pre ++ suf).length - suf.length else 0)
          = pre.length := by
      rw [List.length_append]
      by_cases h : pre.length + suf.length > suf.length
      · rw [if_pos h]; omega
      · rw [if_neg h]; omega
    simp only [read_log_file_lines, Option.getD]
    rw [hidx, List.drop_left]
  · rfl
